import Mathlib

/-
Verification of the news-inshorts service core: the intent-driven filter
pipeline (src/services/filter_chain.go, src/services/filters.go), the
trending-score engine and its cache (src/services/trending.go), and the
orchestrating news service (src/services/article.go), over the data model of
src/models (article_types).

Modelling conventions:
* Go float64 values are modelled as ℚ (exact arithmetic, no rounding); the
  two functions whose bodies need square roots / trigonometry
  (cosineSimilarity, haversineDistance) cannot be written over ℚ, so
  cosineSimilarity is embedded over ℝ, and wherever a filter or score merely
  CONSUMES a similarity or distance value, that function is threaded in as an
  explicit parameter (fields sim / hdist of Env below, parameter hdist of
  FilterByRadius).  No claim below depends on the numeric value of a distance
  or similarity, only on how the surrounding code uses it.
* The persistence repository and the LLM collaborator are oracles: records of
  functions returning Except values, mirroring the Go interfaces.
* Go slices are lists; a nil slice is the empty list.
* Go sort.Slice on slices shorter than 13 elements is exactly the insertion
  sort reproduced below (sortSliceIdx for the two call sites whose comparator
  reads positions of the ORIGINAL slice, sortDescBy for the call sites whose
  comparator reads the elements being sorted; the latter is stable, which
  agrees with Go insertion sort).  All multiset-level facts proved about the
  sorts (length, membership) are independent of the sorting algorithm.
-/

namespace Inshorts

/-- models.Location (src/models article types): a latitude/longitude pair. -/
structure Location where
  latitude : ℚ
  longitude : ℚ
  deriving DecidableEq

/-- The dynamic value carried by models.Intent.Values (interface{} in Go).
The filter chain inspects it as a string, a []string, a float64, an int, or a
[]interface{} whose entries may or may not be strings (modelled as
Option String); anything else is `other`. -/
inductive IntentValue where
  | str (s : String)
  | strList (l : List String)
  | num (x : ℚ)
  | intVal (n : ℤ)
  | anyList (items : List (Option String))
  | other
  deriving DecidableEq

/-- models.Intent: a tagged kind plus kind-specific values. -/
structure Intent where
  type : String
  values : IntentValue
  deriving DecidableEq

/-- models.QueryAnalysis: the result of LLM query processing. -/
structure QueryAnalysis where
  entities : List String
  intents : List Intent
  deriving DecidableEq

/-- models.Article (src/models).  PublicationDate is an abstract timestamp. -/
structure Article where
  id : String
  title : String
  description : String
  url : String
  publicationDate : ℚ
  sourceName : String
  category : List String
  relevanceScore : ℚ
  latitude : ℚ
  longitude : ℚ
  summary : String
  descriptionVector : List ℚ
  deriving DecidableEq

/-- Helper to build an article that differs only in id and relevance score. -/
def mkArticle (id : String) (score : ℚ) : Article :=
  ⟨id, "", "", "", 0, "", [], score, 0, 0, "", []⟩

/-- The zero Article (Go zero value), used only as the default for
out-of-range index reads that cannot occur. -/
def dummyArticle : Article := mkArticle "" 0

/-- types.FilterArticlesRequest: query parameters handed to the repository.
Field order: category, source, lat, lon, radius, scoreThreshold; absent
fields are the Go zero values. -/
structure FilterArticlesRequest where
  category : String
  source : String
  lat : ℚ
  lon : ℚ
  radius : ℚ
  scoreThreshold : ℚ
  deriving DecidableEq

/-- repositories.ArticleRepository, restricted to the two methods the core
calls (FilterArticles and FindAll); each may fail with a data-access error. -/
structure ArticleRepository where
  FilterArticles : FilterArticlesRequest → Except String (List Article)
  FindAll : Unit → Except String (List Article)

/-- services.LLMService, restricted to embedding generation. -/
structure LLMService where
  GenerateEmbedding : String → Except String (List ℚ)

/-- The collaborators a pipeline execution closes over: the repository, the
LLM service, and the two pure numeric functions (cosine similarity and
haversine distance) that are kept abstract over ℚ (see header comment). -/
structure Env where
  repo : ArticleRepository
  llm : LLMService
  sim : List ℚ → List ℚ → ℚ
  hdist : ℚ → ℚ → ℚ → ℚ → ℚ

/- ---------------------------------------------------------------------
Sorting machinery for Go sort.Slice (see header comment).
--------------------------------------------------------------------- -/

/-- Swap the elements at positions i and j (identity when out of range). -/
def listSwap (xs : List α) (i j : ℕ) : List α :=
  match xs[i]?, xs[j]? with
  | some a, some b => (xs.set i b).set j a
  | _, _ => xs

/-- One inner pass of Go insertion sort: starting at position j, swap
downwards while the positional comparator orders (j, j-1) as out of order. -/
def bubbleIdx (lt : ℕ → ℕ → Bool) : List α → ℕ → List α
  | xs, 0 => xs
  | xs, j + 1 => if lt (j + 1) j then bubbleIdx lt (listSwap xs (j + 1) j) j else xs

/-- Go sort.Slice (pdqsort, which is plain insertion sort for slices shorter
than 13 elements) with a comparator lt that depends only on POSITIONS: this
is exactly what the source's FilterByScore / FilterByRadius comparators do,
because they index the original input slice, not the slice being sorted. -/
def sortSliceIdx (lt : ℕ → ℕ → Bool) (xs : List α) : List α :=
  (List.range xs.length).foldl (fun acc i => bubbleIdx lt acc i) xs

/-- Insert x into a list already sorted descending by key, before the first
element whose key is at most key x (stable descending insertion). -/
def insertDescBy (key : α → ℚ) (x : α) : List α → List α
  | [] => [x]
  | y :: ys => if key y ≤ key x then x :: y :: ys else y :: insertDescBy key x ys

/-- Stable descending insertion sort by key: the behaviour of Go sort.Slice
at the call sites whose comparator compares the elements being sorted. -/
def sortDescBy (key : α → ℚ) : List α → List α
  | [] => []
  | x :: xs => insertDescBy key x (sortDescBy key xs)

/- ---------------------------------------------------------------------
src/services/filters.go
--------------------------------------------------------------------- -/

/-- Single-quote character, written via its code point to keep string
literals free of quote characters. -/
def sq : String := String.singleton (Char.ofNat 39)

/-- utils.FormatStringsForLikeQuery: trims each value, drops empties, wraps
each as a quoted SQL LIKE pattern and joins with commas. -/
def formatStringsForLikeQuery (values : List String) : String :=
  if values = [] then ""
  else
    String.intercalate ","
      (values.filterMap fun s =>
        let t := s.trim
        if t = "" then none else some (sq ++ "%" ++ t ++ "%" ++ sq))

/-- filters.go FilterByCategory: with no requested categories it passes the
input through; with a non-empty input it keeps in-memory the articles having
any matching category; with an empty input it queries the repository. -/
def FilterByCategory (repo : ArticleRepository) (categories : List String)
    (input : List Article) : Except String (List Article) :=
  if categories = [] then .ok input
  else if input ≠ [] then
    .ok (input.filter fun a => a.category.any fun c => categories.contains c)
  else
    match repo.FilterArticles ⟨String.intercalate "," categories, "", 0, 0, 0, 0⟩ with
    | .error e => .error ("category filter failed: " ++ e)
    | .ok dbResults => .ok dbResults

/-- filters.go FilterBySource: analogous to FilterByCategory, matching the
article's source name against the requested sources. -/
def FilterBySource (repo : ArticleRepository) (sources : List String)
    (input : List Article) : Except String (List Article) :=
  if sources = [] then .ok input
  else if input ≠ [] then
    .ok (input.filter fun a => sources.contains a.sourceName)
  else
    match repo.FilterArticles ⟨"", formatStringsForLikeQuery sources, 0, 0, 0, 0⟩ with
    | .error e => .error ("source filter failed: " ++ e)
    | .ok dbResults => .ok dbResults

/-- filters.go FilterByScore: with a non-empty input, keeps in-memory the
articles with relevanceScore ≥ threshold and then runs sort.Slice with the
comparator `articles[i].RelevanceScore > articles[j].RelevanceScore` — note
that `articles` is the ORIGINAL input slice, not the filtered slice being
sorted, so the comparator reads positional keys from the input (reproduced
verbatim here via sortSliceIdx).  With an empty input it queries the
repository. -/
def FilterByScore (repo : ArticleRepository) (threshold : ℚ)
    (input : List Article) : Except String (List Article) :=
  if input ≠ [] then
    .ok (sortSliceIdx
      (fun i j => decide ((input.getD j dummyArticle).relevanceScore
        < (input.getD i dummyArticle).relevanceScore))
      (input.filter fun a => threshold ≤ a.relevanceScore))
  else
    match repo.FilterArticles ⟨"", "", 0, 0, 0, threshold⟩ with
    | .error e => .error ("score filter failed: " ++ e)
    | .ok dbResults => .ok dbResults

/-- filters.go FilterByTextSearch: passes through on an empty query, empty
input, or empty joined query string; otherwise generates an embedding for the
joined query (failing closed on error), keeps the articles that have a
description vector, and sorts them by similarity descending. -/
def FilterByTextSearch (sim : List ℚ → List ℚ → ℚ) (_repo : ArticleRepository)
    (llm : LLMService) (query : List String)
    (input : List Article) : Except String (List Article) :=
  if query = [] then .ok input
  else if input = [] then .ok input
  else
    let queryString := String.intercalate " " query
    if queryString = "" then .ok input
    else
      match llm.GenerateEmbedding queryString with
      | .error e => .error ("failed to generate query embedding: " ++ e)
      | .ok queryVector =>
        .ok ((sortDescBy (fun p => p.2)
          (input.filterMap fun a =>
            if a.descriptionVector = [] then none
            else some (a, sim queryVector a.descriptionVector))).map Prod.fst)

/-- filters.go FilterByRadius: the (0,0) sentinel passes the input through;
with a non-empty input, keeps in-memory the articles within radius km of
(lat, lon) and runs sort.Slice whose comparator compares distances of
`articles[i]` / `articles[j]` — again positions of the ORIGINAL input slice.
With an empty input it queries the repository. -/
def FilterByRadius (hdist : ℚ → ℚ → ℚ → ℚ → ℚ) (repo : ArticleRepository)
    (lat lon radius : ℚ) (input : List Article) : Except String (List Article) :=
  if lat = 0 ∧ lon = 0 then .ok input
  else if input ≠ [] then
    .ok (sortSliceIdx
      (fun i j => decide (hdist lat lon (input.getD i dummyArticle).latitude
          (input.getD i dummyArticle).longitude
        < hdist lat lon (input.getD j dummyArticle).latitude
          (input.getD j dummyArticle).longitude))
      (input.filter fun a => hdist lat lon a.latitude a.longitude ≤ radius))
  else
    match repo.FilterArticles ⟨"", "", lat, lon, radius, 0⟩ with
    | .error e => .error ("nearby filter failed: " ++ e)
    | .ok dbResults => .ok dbResults

/- ---------------------------------------------------------------------
src/services/filter_chain.go
--------------------------------------------------------------------- -/

/-- A built pipeline stage: the concrete filter chosen by Execute together
with the parameters the intent supplied to its factory. -/
inductive FilterDesc where
  | search (query : List String)
  | category (categories : List String)
  | source (src : String)
  | score (threshold : ℚ)
  | nearby (lat lon radius : ℚ)
  deriving DecidableEq

/-- The query strings the search factory extracts from params["query"]:
a non-empty string becomes a singleton, a []string is taken as is, a
[]interface{} keeps its non-empty string entries, anything else gives the
empty query. -/
def queryOfValues : IntentValue → List String
  | .str s => if s = "" then [] else [s]
  | .strList l => l
  | .anyList items =>
    items.filterMap fun o => o.bind fun s => if s = "" then none else some s
  | _ => []

/-- One step of Execute's intent loop (filter_chain.go lines 134-188): the
registry lookup plus the params construction for one intent.  `none` means
the intent is skipped (unknown kind, invalid values, or a nearby intent
without a location); `some d` means filter d is appended. -/
def resolveIntent (intent : Intent) (location : Option Location) : Option FilterDesc :=
  if intent.type = "category" then
    match intent.values with
    | .strList cats => some (.category cats)
    | .str c => some (.category [c])
    | _ => none
  else if intent.type = "source" then
    match intent.values with
    | .str s => some (.source s)
    | _ => none
  else if intent.type = "nearby" then
    match location with
    | some loc => some (.nearby loc.latitude loc.longitude 50)
    | none => none
  else if intent.type = "score" then
    match intent.values with
    | .num t => some (.score t)
    | .intVal n => some (.score (n : ℚ))
    | _ => some (.score (7/10))
  else if intent.type = "search" then
    some (.search (queryOfValues intent.values))
  else none

/-- The filters contributed by the intent loop, in intent order. -/
def intentFilters : List Intent → Option Location → List FilterDesc
  | [], _ => []
  | i :: rest, loc =>
    match resolveIntent i loc with
    | some d => d :: intentFilters rest loc
    | none => intentFilters rest loc

/-- filter_chain.go Execute lines 129-189: the text-search filter for the
entities (when non-empty) is appended FIRST, then the intent-derived
filters. -/
def buildFilters (intents : List Intent) (entities : List String)
    (location : Option Location) : List FilterDesc :=
  (if entities = [] then [] else [.search entities]) ++ intentFilters intents location

/-- The full stage list Execute runs: buildFilters plus the unconditional
trailing ScoreFilter(0.7) of line 190. -/
def pipelineStages (intents : List Intent) (entities : List String)
    (location : Option Location) : List FilterDesc :=
  buildFilters intents entities location ++ [.score (7/10)]

/-- Apply one built stage (dispatch from descriptor to the filters.go
function, with the collaborators of env). -/
def runFilter (env : Env) (d : FilterDesc) (input : List Article) :
    Except String (List Article) :=
  match d with
  | .search q => FilterByTextSearch env.sim env.repo env.llm q input
  | .category cats => FilterByCategory env.repo cats input
  | .source s => FilterBySource env.repo [s] input
  | .score t => FilterByScore env.repo t input
  | .nearby lat lon r => FilterByRadius env.hdist env.repo lat lon r input

/-- filter_chain.go Chain: thread the candidate list through the stages,
aborting on the first stage error. -/
def runChain (env : Env) : List FilterDesc → List Article → Except String (List Article)
  | [], arts => .ok arts
  | d :: ds, arts =>
    match runFilter env d arts with
    | .error e => .error e
    | .ok out => runChain env ds out

/-- filter_chain.go Execute: short-circuit to FindAll when there are no
intents, no entities and no location; otherwise build the pipeline and run it
starting from the empty candidate list, wrapping any stage error. -/
def Execute (env : Env) (intents : List Intent) (entities : List String)
    (location : Option Location) : Except String (List Article) :=
  if intents = [] ∧ entities = [] ∧ location = none then env.repo.FindAll ()
  else
    match runChain env (pipelineStages intents entities location) [] with
    | .error e => .error ("filter chain execution failed: " ++ e)
    | .ok result => .ok result

/- ---------------------------------------------------------------------
src/services/trending.go
--------------------------------------------------------------------- -/

/-- trending.go computeVolumeScore: event count normalised with a cap at
100 events. -/
def computeVolumeScore (eventCount : ℕ) : ℚ :=
  min ((eventCount : ℚ) / 100) 1

/-- trending.go computeRecencyScore: the article age (a duration, modelled
by its length in hours) converted to days, then 1/(1+ageDays). -/
def computeRecencyScore (articleAgeHours : ℚ) : ℚ :=
  let ageDays := articleAgeHours / 24
  1 / (1 + ageDays)

/-- trending.go computeGeoScore: inverse distance weighting with a 10 km
normalisation factor. -/
def computeGeoScore (distanceKm : ℚ) : ℚ :=
  1 / (1 + distanceKm / 10)

/-- trending.go ComputeTrendingScore, lines 49-91, as a function of its three
measured quantities: the number of user events in the trailing 7-day window,
the article age (time.Since(PublicationDate), in hours; negative when the
publication date lies in the future), and the haversine distance in km from
the query location (supplied by calculateDistance in the source; a distance
is always nonnegative). -/
def ComputeTrendingScore (eventCount : ℕ) (articleAgeHours : ℚ)
    (distanceKm : ℚ) : ℚ :=
  computeVolumeScore eventCount * (4/10)
    + computeRecencyScore articleAgeHours * (4/10)
    + computeGeoScore distanceKm * (2/10)

/-- Go math.Round: round to the nearest integer, half away from zero. -/
def goRound (x : ℚ) : ℤ :=
  if 0 ≤ x then ⌊x + 1/2⌋ else ⌈x - 1/2⌉

/-- The information content of a trending cache key string
"trending:%.2f:%.2f:%d": the coordinates rounded to 2 decimal places (kept
as the integer of hundredths, which the fixed two-decimal rendering encodes
injectively) and the limit. -/
abbrev CacheKey := ℤ × ℤ × ℕ

/-- trending.go generateCacheKey: round lat/lon to 2 decimal places and
combine with the limit. -/
def generateCacheKey (lat lon : ℚ) (limit : ℕ) : CacheKey :=
  (goRound (lat * 100), goRound (lon * 100), limit)

/-- The Redis key/value store backing the trending cache, modelled as an
association list with newest-first shadowing (SET overwrites). Stored
payloads are kept typed, so the JSON round-trip always succeeds; the
corrupt-payload path of GetCachedTrending behaves like a miss, which the
model folds into the lookup returning none. -/
abbrev Cache := List (CacheKey × List Article)

/-- Redis GET. -/
def cacheGet (c : Cache) (k : CacheKey) : Option (List Article) :=
  (c.find? fun e => decide (e.1 = k)).map Prod.snd

/-- Redis SET (with TTL, not modelled: expiry only removes entries). -/
def cacheSet (c : Cache) (k : CacheKey) (v : List Article) : Cache :=
  (k, v) :: c

/-- trending.go GetCachedTrending: look up the key for (lat, lon, limit);
a present entry is a hit returning the stored articles, anything else
(missing key, Redis error, corrupt payload) is a miss. -/
def GetCachedTrending (c : Cache) (lat lon : ℚ) (limit : ℕ) :
    List Article × Bool :=
  match cacheGet c (generateCacheKey lat lon limit) with
  | none => ([], false)
  | some arts => (arts, true)

/-- trending.go CacheTrending: store the articles under the key built from
(lat, lon, len(articles)). -/
def CacheTrending (c : Cache) (lat lon : ℚ) (articles : List Article) : Cache :=
  cacheSet c (generateCacheKey lat lon articles.length) articles

/- ---------------------------------------------------------------------
src/services/article.go
--------------------------------------------------------------------- -/

/-- article.go ProcessNewsQuery: analyse the query via the LLM (processQuery
oracle), execute the filter chain, and truncate the result to the top 5
articles — the limit 5 is a literal in the source, not a parameter. -/
def ProcessNewsQuery (env : Env) (processQuery : String → Except String QueryAnalysis)
    (query : String) (location : Option Location) : Except String (List Article) :=
  match processQuery query with
  | .error e => .error ("failed to analyze query: " ++ e)
  | .ok analysis =>
    match Execute env analysis.intents analysis.entities location with
    | .error e => .error ("failed to filter articles: " ++ e)
    | .ok filteredArticles =>
      .ok (if 5 < filteredArticles.length then filteredArticles.take 5 else filteredArticles)

/-- article.go GetTrendingNews: serve from the cache when possible; otherwise
fetch all articles, score each with ComputeTrendingScore (the score oracle;
articles whose score computation fails are skipped), sort by score
descending, truncate to the limit, and cache the result.  The cache is
threaded explicitly as state. -/
def GetTrendingNews (repo : ArticleRepository) (score : Article → Except String ℚ)
    (c : Cache) (lat lon : ℚ) (limit : ℕ) :
    Except String (List Article × Cache) :=
  match GetCachedTrending c lat lon limit with
  | (cached, true) => .ok (cached, c)
  | (_, false) =>
    match repo.FindAll () with
    | .error e => .error ("failed to retrieve articles: " ++ e)
    | .ok articles =>
      let scored := articles.filterMap fun a =>
        match score a with
        | .ok s => some (a, s)
        | .error _ => none
      let sorted := sortDescBy (fun p => p.2) scored
      let limited := if limit < sorted.length then sorted.take limit else sorted
      let trending := limited.map Prod.fst
      .ok (trending, CacheTrending c lat lon trending)

/- ---------------------------------------------------------------------
GeoMath: filters.go cosineSimilarity (over ℝ, since it takes square roots).
--------------------------------------------------------------------- -/

/-- Sum of squares of a vector (the norm1/norm2 accumulators). -/
def sumSq (v : List ℝ) : ℝ := (v.map fun x => x * x).sum

/-- Dot product accumulator (the loop truncates at the common length; the
source only reaches it when the lengths are equal). -/
def dotL (v1 v2 : List ℝ) : ℝ := (List.zipWith (· * ·) v1 v2).sum

open scoped Classical in
/-- filters.go cosineSimilarity: 0 when the lengths differ or either norm is
zero, otherwise the dot product divided by the product of the norms. -/
noncomputable def cosineSimilarity (vec1 vec2 : List ℝ) : ℝ :=
  if vec1.length ≠ vec2.length then 0
  else
    if Real.sqrt (sumSq vec1) = 0 ∨ Real.sqrt (sumSq vec2) = 0 then 0
    else dotL vec1 vec2 / (Real.sqrt (sumSq vec1) * Real.sqrt (sumSq vec2))

/- ---------------------------------------------------------------------
Permutation facts about the sorting machinery.
--------------------------------------------------------------------- -/

theorem cons_set_perm : ∀ (rest : List α) (j : ℕ) (x b : α),
    rest[j]? = some b → (b :: rest.set j x).Perm (x :: rest)
  | [], j, _, _, h => by simp at h
  | y :: t, 0, x, b, h => by
    simp only [List.getElem?_cons_zero, Option.some.injEq] at h
    cases h
    simpa [List.set] using List.Perm.swap x y t
  | y :: t, j + 1, x, b, h => by
    simp only [List.getElem?_cons_succ] at h
    have ih := (cons_set_perm t j x b h).cons y
    have step : (b :: y :: t.set j x).Perm (y :: b :: t.set j x) :=
      List.Perm.swap y b (t.set j x)
    have last : (y :: x :: t).Perm (x :: y :: t) := List.Perm.swap x y t
    simpa [List.set] using (step.trans ih).trans last

theorem listSwap_perm : ∀ (xs : List α) (i j : ℕ), (listSwap xs i j).Perm xs := by
  intro xs
  induction xs with
  | nil => intro i j; simp [listSwap]
  | cons x t ih =>
    intro i j
    match i, j with
    | 0, 0 => simp [listSwap, List.set]
    | 0, j + 1 =>
      cases hb : t[j]? with
      | none => simp [listSwap, hb]
      | some b =>
        simpa [listSwap, hb, List.set] using cons_set_perm t j x b hb
    | i + 1, 0 =>
      cases ha : t[i]? with
      | none => simp [listSwap, ha]
      | some a =>
        simpa [listSwap, ha, List.set] using cons_set_perm t i x a ha
    | i + 1, j + 1 =>
      cases ha : t[i]? with
      | none => simp [listSwap, ha]
      | some a =>
        cases hb : t[j]? with
        | none => simp [listSwap, ha, hb]
        | some b =>
          have hperm := (ih i j).cons x
          simp only [listSwap, ha, hb] at hperm
          simpa [listSwap, ha, hb, List.set] using hperm

theorem bubbleIdx_perm (lt : ℕ → ℕ → Bool) :
    ∀ (j : ℕ) (xs : List α), (bubbleIdx lt xs j).Perm xs := by
  intro j
  induction j with
  | zero => intro xs; simp [bubbleIdx]
  | succ j ih =>
    intro xs
    by_cases h : lt (j + 1) j = true
    · simpa [bubbleIdx, h] using (ih (listSwap xs (j + 1) j)).trans (listSwap_perm xs (j + 1) j)
    · simp [bubbleIdx, h]

theorem foldl_bubbleIdx_perm (lt : ℕ → ℕ → Bool) :
    ∀ (l : List ℕ) (xs : List α),
      (l.foldl (fun acc i => bubbleIdx lt acc i) xs).Perm xs := by
  intro l
  induction l with
  | nil => intro xs; simp
  | cons i rest ih =>
    intro xs
    simpa using (ih (bubbleIdx lt xs i)).trans (bubbleIdx_perm lt i xs)

theorem sortSliceIdx_perm (lt : ℕ → ℕ → Bool) (xs : List α) :
    (sortSliceIdx lt xs).Perm xs :=
  foldl_bubbleIdx_perm lt (List.range xs.length) xs

theorem insertDescBy_perm (key : α → ℚ) (x : α) :
    ∀ l : List α, (insertDescBy key x l).Perm (x :: l) := by
  intro l
  induction l with
  | nil => simp [insertDescBy]
  | cons y ys ih =>
    by_cases h : key y ≤ key x
    · simp [insertDescBy, h]
    · simpa [insertDescBy, h] using (ih.cons y).trans (List.Perm.swap x y ys)

theorem sortDescBy_perm (key : α → ℚ) :
    ∀ l : List α, (sortDescBy key l).Perm l := by
  intro l
  induction l with
  | nil => simp [sortDescBy]
  | cons x xs ih =>
    simpa [sortDescBy] using (insertDescBy_perm key x (sortDescBy key xs)).trans (ih.cons x)

theorem sortSliceIdx_subset (lt : ℕ → ℕ → Bool) (xs : List α) :
    ∀ a ∈ sortSliceIdx lt xs, a ∈ xs :=
  fun _ ha => (sortSliceIdx_perm lt xs).subset ha

theorem sortDescBy_length (key : α → ℚ) (l : List α) :
    (sortDescBy key l).length = l.length :=
  (sortDescBy_perm key l).length_eq

/- ---------------------------------------------------------------------
Facts about pipeline construction.
--------------------------------------------------------------------- -/

/-- A trivial repository for concrete instantiations. -/
def trivRepo : ArticleRepository := ⟨fun _ => .ok [], fun _ => .ok []⟩

/-- A trivial environment for concrete instantiations. -/
def trivEnv : Env := ⟨trivRepo, ⟨fun _ => .ok []⟩, fun _ _ => 0, fun _ _ _ _ => 0⟩

/-- Without a location, the intent loop never resolves to a geo stage: every
branch of resolveIntent other than the (skipped) nearby one produces a
different constructor. -/
theorem resolveIntent_none_no_nearby (i : Intent) (d : FilterDesc)
    (hd : resolveIntent i none = some d) :
    ∀ lat lon r, d ≠ .nearby lat lon r := by
  intro lat lon r
  unfold resolveIntent at hd
  split_ifs at hd <;>
    cases hv : i.values <;>
      simp [hv] at hd <;>
        simp [← hd]

/-- Without a location, nearby intents are skipped by the intent loop:
filtering them out of the intent list leaves the built stages unchanged. -/
theorem intentFilters_none_drop_nearby : ∀ intents : List Intent,
    intentFilters intents none
      = intentFilters (intents.filter fun i => !(i.type = "nearby")) none := by
  intro intents
  induction intents with
  | nil => rfl
  | cons i rest ih =>
    by_cases hty : i.type = "nearby"
    · have hres : resolveIntent i none = none := by
        simp [resolveIntent, hty]
      simp [intentFilters, hres, List.filter, hty, ih]
    · simp only [List.filter, hty]
      simp only [decide_eq_true_eq] at *
      cases hres : resolveIntent i none <;>
        simp [intentFilters, hres, ih, List.filter_cons, hty]

/-- No stage of a pipeline built without a location is a geo-radius stage. -/
theorem intentFilters_none_mem_no_nearby (intents : List Intent)
    (d : FilterDesc) (hd : d ∈ intentFilters intents none) :
    ∀ lat lon r, d ≠ .nearby lat lon r := by
  induction intents with
  | nil => simp [intentFilters] at hd
  | cons i rest ih =>
    cases hres : resolveIntent i none with
    | none =>
      rw [intentFilters, hres] at hd
      exact ih hd
    | some d0 =>
      rw [intentFilters, hres] at hd
      rcases List.mem_cons.mp hd with h | h
      · subst h; exact resolveIntent_none_no_nearby i d hres
      · exact ih h

/- ---------------------------------------------------------------------
Claim theorems.
--------------------------------------------------------------------- -/

/-- C1 (counterexample): for intents = [category ["tech"]] and entities =
["AI"] with a location, the pipeline Execute builds is TextSimilarityFilter,
then CategoryFilter, then ScoreFilter(0.7) — the stage at index 1 (the one
immediately preceding the trailing ScoreFilter) is the CategoryFilter, not
the TextSimilarityFilter, refuting the claimed placement. -/
theorem c1_text_similarity_not_penultimate_cex :
    pipelineStages [⟨"category", IntentValue.strList ["tech"]⟩] ["AI"]
        (some ⟨3777/100, (-12241)/100⟩)
      = [.search ["AI"], .category ["tech"], .score (7/10)]
    ∧ (pipelineStages [⟨"category", IntentValue.strList ["tech"]⟩] ["AI"]
        (some ⟨3777/100, (-12241)/100⟩))[1]?
      ≠ some (.search ["AI"]) := by
  constructor
  · simp [pipelineStages, buildFilters, intentFilters, resolveIntent]
  · simp [pipelineStages, buildFilters, intentFilters, resolveIntent]

/-- C1 (amended): for every Execute call with a non-empty entities list, the
TextSimilarityFilter for the entities is the FIRST stage of the built
pipeline, before every intent-derived filter, with the ScoreFilter(0.7)
still trailing. -/
theorem c1_text_similarity_first_stage (intents : List Intent)
    (entities : List String) (location : Option Location) (h : entities ≠ []) :
    pipelineStages intents entities location
      = .search entities :: (intentFilters intents location ++ [.score (7/10)]) := by
  simp [pipelineStages, buildFilters, h]

/-- C1 witness: concrete instantiation of the amended claim. -/
theorem c1_text_similarity_first_stage_witness :
    (["AI"] : List String) ≠ []
    ∧ pipelineStages [] ["AI"] none
      = .search ["AI"] :: (intentFilters [] none ++ [.score (7/10)]) :=
  ⟨by decide, c1_text_similarity_first_stage [] ["AI"] none (by decide)⟩

/-- C3: whenever Execute does not take the short-circuit path, the stage
list it runs ends with ScoreFilter(0.7), and Execute's result is exactly the
outcome of running that stage list from the empty candidate list. -/
theorem c3_score_filter_trailing (env : Env) (intents : List Intent)
    (entities : List String) (location : Option Location)
    (h : ¬(intents = [] ∧ entities = [] ∧ location = none)) :
    (pipelineStages intents entities location).getLast? = some (.score (7/10))
    ∧ Execute env intents entities location
      = match runChain env (pipelineStages intents entities location) [] with
        | .error e => .error ("filter chain execution failed: " ++ e)
        | .ok result => .ok result := by
  refine ⟨?_, ?_⟩
  · rw [pipelineStages]
    exact List.getLast?_concat _
  · simp [Execute, h]

/-- C3 witness: concrete instantiation with one entity and no intents. -/
theorem c3_score_filter_trailing_witness :
    ¬(([] : List Intent) = [] ∧ (["AI"] : List String) = []
        ∧ (none : Option Location) = none)
    ∧ (pipelineStages [] ["AI"] none).getLast? = some (.score (7/10))
    ∧ Execute trivEnv [] ["AI"] none
      = match runChain trivEnv (pipelineStages [] ["AI"] none) [] with
        | .error e => .error ("filter chain execution failed: " ++ e)
        | .ok result => .ok result :=
  ⟨by decide,
   (c3_score_filter_trailing trivEnv [] ["AI"] none (by decide)).1,
   (c3_score_filter_trailing trivEnv [] ["AI"] none (by decide)).2⟩

/-- C7: with a nearby intent present but no location, Execute skips the
nearby intent: the built stages equal those of the intent list with all
nearby intents removed, no stage is a geo-radius stage, and Execute's result
is exactly the outcome of running those remaining stages (so the nearby
intent by itself never produces an error). -/
theorem c7_nearby_skipped_without_location (env : Env) (intents : List Intent)
    (entities : List String) (v : IntentValue)
    (h : (⟨"nearby", v⟩ : Intent) ∈ intents) :
    buildFilters intents entities none
      = buildFilters (intents.filter fun i => !(i.type = "nearby")) entities none
    ∧ (∀ d ∈ pipelineStages intents entities none, ∀ lat lon r, d ≠ .nearby lat lon r)
    ∧ Execute env intents entities none
      = match runChain env (pipelineStages intents entities none) [] with
        | .error e => .error ("filter chain execution failed: " ++ e)
        | .ok result => .ok result := by
  refine ⟨?_, ?_, ?_⟩
  · rw [buildFilters, buildFilters, intentFilters_none_drop_nearby]
  · intro d hd lat lon r
    rw [pipelineStages] at hd
    rcases List.mem_append.mp hd with h1 | h1
    · rw [buildFilters] at h1
      rcases List.mem_append.mp h1 with h2 | h2
      · rcases entities with _ | ⟨e, es⟩ <;> simp at h2
        subst h2; simp
      · exact intentFilters_none_mem_no_nearby intents d h2 lat lon r
    · simp at h1; subst h1; simp
  · have hne : intents ≠ [] := List.ne_nil_of_mem h
    simp [Execute, hne]

/-- C7 witness: a single nearby intent, no entities, no location. -/
theorem c7_nearby_skipped_without_location_witness :
    ((⟨"nearby", IntentValue.other⟩ : Intent) ∈
        ([⟨"nearby", IntentValue.other⟩] : List Intent))
    ∧ buildFilters [⟨"nearby", IntentValue.other⟩] [] none
      = buildFilters (([⟨"nearby", IntentValue.other⟩] : List Intent).filter
          fun i => !(i.type = "nearby")) [] none
    ∧ Execute trivEnv [⟨"nearby", IntentValue.other⟩] [] none
      = match runChain trivEnv (pipelineStages [⟨"nearby", IntentValue.other⟩] [] none) [] with
        | .error e => .error ("filter chain execution failed: " ++ e)
        | .ok result => .ok result :=
  ⟨by decide,
   (c7_nearby_skipped_without_location trivEnv _ [] IntentValue.other (by decide)).1,
   (c7_nearby_skipped_without_location trivEnv _ [] IntentValue.other (by decide)).2.2⟩

/-- C2 (code bug evaluation): on input [a(0.5), b(0.9), c(0.8)] with
threshold 0.7, FilterByScore keeps exactly b and c but returns them as
[c(0.8), b(0.9)] — an ASCENDING pair — because its sort comparator reads
relevance scores from the original input slice at the positions of the
filtered slice (positions 0,1 of the filtered slice pick up the scores 0.5
and 0.9 of a and b).  This contradicts the claimed descending order. -/
theorem c2_score_filter_sort_bug_eval :
    FilterByScore trivRepo (7/10)
        [mkArticle "a" (1/2), mkArticle "b" (9/10), mkArticle "c" (4/5)]
      = .ok [mkArticle "c" (4/5), mkArticle "b" (9/10)]
    ∧ (mkArticle "c" (4/5)).relevanceScore
        < (mkArticle "b" (9/10)).relevanceScore := by
  constructor
  · norm_num [FilterByScore, mkArticle, dummyArticle, sortSliceIdx, bubbleIdx,
      listSwap, List.filter, List.range_succ, List.getD, List.set]
    exact fun hcontra => absurd hcontra (List.cons_ne_nil _ _)
  · norm_num [mkArticle]

/-- C4: each of the four structural filters, on a non-empty input, computes
its result without consulting the repository (the result is invariant under
replacing the repository) and returns only articles drawn from the input. -/
theorem c4_filters_in_memory_subset (repo1 repo2 : ArticleRepository)
    (hdist : ℚ → ℚ → ℚ → ℚ → ℚ) (cats srcs : List String)
    (t lat lon radius : ℚ) (input : List Article) (h : input ≠ []) :
    (FilterByCategory repo1 cats input = FilterByCategory repo2 cats input
      ∧ ∀ out, FilterByCategory repo1 cats input = .ok out → ∀ a ∈ out, a ∈ input)
    ∧ (FilterBySource repo1 srcs input = FilterBySource repo2 srcs input
      ∧ ∀ out, FilterBySource repo1 srcs input = .ok out → ∀ a ∈ out, a ∈ input)
    ∧ (FilterByScore repo1 t input = FilterByScore repo2 t input
      ∧ ∀ out, FilterByScore repo1 t input = .ok out → ∀ a ∈ out, a ∈ input)
    ∧ (FilterByRadius hdist repo1 lat lon radius input
        = FilterByRadius hdist repo2 lat lon radius input
      ∧ ∀ out, FilterByRadius hdist repo1 lat lon radius input = .ok out →
          ∀ a ∈ out, a ∈ input) := by
  refine ⟨⟨?_, ?_⟩, ⟨?_, ?_⟩, ⟨?_, ?_⟩, ⟨?_, ?_⟩⟩
  · by_cases hc : cats = [] <;> simp [FilterByCategory, hc, h]
  · intro out hout a ha
    by_cases hc : cats = []
    · simp [FilterByCategory, hc] at hout
      subst hout; exact ha
    · simp [FilterByCategory, hc, h] at hout
      subst hout
      exact List.filter_subset' input ha
  · by_cases hs : srcs = [] <;> simp [FilterBySource, hs, h]
  · intro out hout a ha
    by_cases hs : srcs = []
    · simp [FilterBySource, hs] at hout
      subst hout; exact ha
    · simp [FilterBySource, hs, h] at hout
      subst hout
      exact List.filter_subset' input ha
  · simp [FilterByScore, h]
  · intro out hout a ha
    simp [FilterByScore, h] at hout
    subst hout
    exact List.filter_subset' input (sortSliceIdx_subset _ _ a ha)
  · by_cases hz : lat = 0 ∧ lon = 0 <;> simp [FilterByRadius, hz, h]
  · intro out hout a ha
    by_cases hz : lat = 0 ∧ lon = 0
    · simp [FilterByRadius, hz] at hout
      subst hout; exact ha
    · simp [FilterByRadius, hz, h] at hout
      subst hout
      exact List.filter_subset' input (sortSliceIdx_subset _ _ a ha)

/-- C4 witness: concrete instantiation on a one-element input. -/
theorem c4_filters_in_memory_subset_witness :
    ([mkArticle "a" 1] : List Article) ≠ []
    ∧ FilterByScore trivRepo (7/10) [mkArticle "a" 1]
        = FilterByScore ⟨fun _ => .error "db down", fun _ => .error "db down"⟩
            (7/10) [mkArticle "a" 1] :=
  ⟨by decide,
   (c4_filters_in_memory_subset trivRepo
      ⟨fun _ => .error "db down", fun _ => .error "db down"⟩
      (fun _ _ _ _ => 0) [] [] (7/10) 0 0 0 [mkArticle "a" 1]
      (by decide)).2.2.1.1⟩

/-- C9: whenever ProcessNewsQuery succeeds, its result is the first five
elements of the filter-chain output (hence never more than five articles);
the limit 5 is a literal of the source, not a parameter. -/
theorem c9_process_news_query_limit_five (env : Env)
    (processQuery : String → Except String QueryAnalysis) (query : String)
    (location : Option Location) (out : List Article)
    (h : ProcessNewsQuery env processQuery query location = .ok out) :
    out.length ≤ 5
    ∧ ∃ analysis full, processQuery query = .ok analysis
        ∧ Execute env analysis.intents analysis.entities location = .ok full
        ∧ out = full.take 5 := by
  unfold ProcessNewsQuery at h
  split at h
  · simp at h
  · rename_i analysis hq
    split at h
    · simp at h
    · rename_i full he
      simp only [Except.ok.injEq] at h
      have htake : out = full.take 5 := by
        by_cases h5 : 5 < full.length
        · simp [h5] at h; exact h.symm
        · simp [h5] at h
          rw [← h, List.take_of_length_le (by omega)]
      refine ⟨?_, analysis, full, hq, he, htake⟩
      rw [htake, List.length_take]
      omega

/-- Repository whose FindAll returns six articles, for the C9 witness. -/
def sixRepo : ArticleRepository :=
  ⟨fun _ => .ok [], fun _ => .ok (List.replicate 6 (mkArticle "x" 1))⟩

/-- Environment around sixRepo. -/
def sixEnv : Env := ⟨sixRepo, ⟨fun _ => .ok []⟩, fun _ _ => 0, fun _ _ _ _ => 0⟩

/-- C9 witness: with six stored articles and a query that analyses to no
intents and no entities, ProcessNewsQuery returns exactly five articles. -/
theorem c9_process_news_query_limit_five_witness :
    ProcessNewsQuery sixEnv (fun _ => .ok ⟨[], []⟩) "q" none
      = .ok (List.replicate 5 (mkArticle "x" 1))
    ∧ (List.replicate 5 (mkArticle "x" 1)).length ≤ 5 := by
  have h : ProcessNewsQuery sixEnv (fun _ => .ok ⟨[], []⟩) "q" none
      = .ok (List.replicate 5 (mkArticle "x" 1)) := rfl
  exact ⟨h,
    (c9_process_news_query_limit_five sixEnv (fun _ => .ok ⟨[], []⟩) "q" none _ h).1⟩

/-- C5 (counterexample): for an article whose publication date lies half a
day in the future (time.Since yields -12 hours) with 200 events and zero
distance, ComputeTrendingScore returns 1.4, outside [0,1]. -/
theorem c5_trending_score_exceeds_one_cex :
    ComputeTrendingScore 200 (-12) 0 = 7/5
    ∧ ¬(ComputeTrendingScore 200 (-12) 0 ≤ 1) := by
  constructor <;>
    norm_num [ComputeTrendingScore, computeVolumeScore, computeRecencyScore,
      computeGeoScore]

/-- C5 (amended): the trending score is exactly
0.4·min(events/100,1) + 0.4·(1/(1+ageDays)) + 0.2·(1/(1+distanceKm/10)),
and it lies in [0,1] provided the article age is nonnegative (publication
date not in the future); the distance, being a haversine distance in the
source, is nonnegative. -/
theorem c5_trending_score_formula_range (eventCount : ℕ)
    (ageHours distKm : ℚ) (hage : 0 ≤ ageHours) (hdist : 0 ≤ distKm) :
    ComputeTrendingScore eventCount ageHours distKm
      = (4/10) * min ((eventCount : ℚ) / 100) 1
        + (4/10) * (1 / (1 + ageHours / 24))
        + (2/10) * (1 / (1 + distKm / 10))
    ∧ 0 ≤ ComputeTrendingScore eventCount ageHours distKm
    ∧ ComputeTrendingScore eventCount ageHours distKm ≤ 1 := by
  have hv0 : 0 ≤ computeVolumeScore eventCount :=
    le_min (by positivity) zero_le_one
  have hv1 : computeVolumeScore eventCount ≤ 1 := min_le_right _ _
  have hage24 : (0:ℚ) ≤ ageHours / 24 := by positivity
  have hr0 : 0 ≤ computeRecencyScore ageHours := by
    unfold computeRecencyScore; positivity
  have hr1 : computeRecencyScore ageHours ≤ 1 := by
    unfold computeRecencyScore
    rw [div_le_one (by linarith)]
    linarith
  have hd10 : (0:ℚ) ≤ distKm / 10 := by positivity
  have hg0 : 0 ≤ computeGeoScore distKm := by
    unfold computeGeoScore; positivity
  have hg1 : computeGeoScore distKm ≤ 1 := by
    unfold computeGeoScore
    rw [div_le_one (by linarith)]
    linarith
  refine ⟨?_, ?_, ?_⟩
  · simp only [ComputeTrendingScore, computeVolumeScore, computeRecencyScore,
      computeGeoScore]
    ring
  · unfold ComputeTrendingScore
    linarith
  · unfold ComputeTrendingScore
    linarith

/-- C5 witness: concrete instantiation of the amended claim at 200 events,
age 24 hours, distance 5 km. -/
theorem c5_trending_score_formula_range_witness :
    (0:ℚ) ≤ 24 ∧ (0:ℚ) ≤ 5
    ∧ (ComputeTrendingScore 200 24 5
        = (4/10) * min ((200 : ℚ) / 100) 1
          + (4/10) * (1 / (1 + 24 / 24))
          + (2/10) * (1 / (1 + 5 / 10))
      ∧ 0 ≤ ComputeTrendingScore 200 24 5
      ∧ ComputeTrendingScore 200 24 5 ≤ 1) :=
  ⟨by norm_num, by norm_num,
   c5_trending_score_formula_range 200 24 5 (by norm_num) (by norm_num)⟩

/-- C6: two coordinate pairs that agree after rounding to 2 decimal places
produce the same cache key, so a Get with the matching limit issued after a
Put is a cache hit returning the stored articles. -/
theorem c6_cache_key_quantization_roundtrip (c : Cache)
    (lat lon lat2 lon2 : ℚ) (arts : List Article) (limit : ℕ)
    (hlat : goRound (lat * 100) = goRound (lat2 * 100))
    (hlon : goRound (lon * 100) = goRound (lon2 * 100))
    (hlim : limit = arts.length) :
    GetCachedTrending (CacheTrending c lat lon arts) lat2 lon2 limit
      = (arts, true) := by
  subst hlim
  unfold GetCachedTrending CacheTrending cacheSet cacheGet generateCacheKey
  simp [List.find?, hlat, hlon]

/-- C6 witness: the spec scenario — Put at (19.076, 72.8777), Get at
(19.0761, 72.8778) with the matching limit, is a hit. -/
theorem c6_cache_key_quantization_roundtrip_witness :
    goRound ((19.076 : ℚ) * 100) = goRound ((19.0761 : ℚ) * 100)
    ∧ goRound ((72.8777 : ℚ) * 100) = goRound ((72.8778 : ℚ) * 100)
    ∧ GetCachedTrending (CacheTrending [] 19.076 72.8777 [mkArticle "m" 1])
        19.0761 72.8778 1
      = ([mkArticle "m" 1], true) :=
  ⟨by norm_num [goRound],
   by norm_num [goRound],
   c6_cache_key_quantization_roundtrip [] 19.076 72.8777 19.0761 72.8778
     [mkArticle "m" 1] 1 (by norm_num [goRound]) (by norm_num [goRound]) rfl⟩

/-- C10: CacheTrending keys its entry by the length of the article list it
stores; a fresh entry can only be hit by a Get whose limit equals that
length; consequently a GetTrendingNews that returns fewer than limit
articles writes an entry an identical follow-up request misses. -/
theorem c10_cache_limit_mismatch :
    (∀ (c : Cache) (lat lon : ℚ) (arts : List Article),
      CacheTrending c lat lon arts
        = cacheSet c (generateCacheKey lat lon arts.length) arts)
    ∧ (∀ (lat lon lat2 lon2 : ℚ) (arts : List Article) (limit : ℕ),
      (GetCachedTrending (CacheTrending [] lat lon arts) lat2 lon2 limit).2 = true →
      limit = arts.length)
    ∧ (∀ (repo : ArticleRepository) (score : Article → Except String ℚ)
        (lat lon : ℚ) (limit : ℕ) (res : List Article) (c2 : Cache),
      GetTrendingNews repo score [] lat lon limit = .ok (res, c2) →
      res.length < limit →
      (GetCachedTrending c2 lat lon limit).2 = false) := by
  refine ⟨fun _ _ _ _ => rfl, ?_, ?_⟩
  · intro lat lon lat2 lon2 arts limit h
    unfold GetCachedTrending CacheTrending cacheSet cacheGet at h
    by_cases hk : generateCacheKey lat lon arts.length
        = generateCacheKey lat2 lon2 limit
    · have h3 := congrArg (fun k => k.2.2) hk
      simpa [generateCacheKey] using h3.symm
    · simp [List.find?, hk] at h
  · intro repo score lat lon limit res c2 h hlt
    unfold GetTrendingNews at h
    split at h
    · rename_i cached heq
      simp [GetCachedTrending, cacheGet, List.find?] at heq
    · split at h
      · simp at h
      · rename_i articles hfind
        simp only [Except.ok.injEq, Prod.mk.injEq] at h
        obtain ⟨hres, hc2⟩ := h
        have hne : generateCacheKey lat lon res.length
            ≠ generateCacheKey lat lon limit := by
          intro hk
          have h3 := congrArg (fun k => k.2.2) hk
          simp only [generateCacheKey] at h3
          omega
        rw [← hc2, hres]
        simp [GetCachedTrending, CacheTrending, cacheSet, cacheGet,
          List.find?, hne]

/-- C10 witness: with an empty store, a trending request with limit 1 writes
an entry keyed by count 0 that the identical next request misses; and a
fresh Put of one article is only hit with limit 1. -/
theorem c10_cache_limit_mismatch_witness :
    GetTrendingNews trivRepo (fun _ => .ok 0) [] 0 0 1
      = .ok ([], CacheTrending [] 0 0 [])
    ∧ (0:ℕ) < 1
    ∧ (GetCachedTrending (CacheTrending [] 0 0 []) 0 0 1).2 = false
    ∧ 1 = ([mkArticle "m" 1] : List Article).length := by
  have h : GetTrendingNews trivRepo (fun _ => .ok 0) [] 0 0 1
      = .ok ([], CacheTrending [] 0 0 []) := rfl
  have hhit : (GetCachedTrending (CacheTrending [] 0 0 [mkArticle "m" 1])
      0 0 1).2 = true := by
    norm_num [GetCachedTrending, CacheTrending, cacheSet, cacheGet,
      generateCacheKey, goRound, List.find?]
  exact ⟨h, by decide,
    c10_cache_limit_mismatch.2.2 trivRepo (fun _ => .ok 0) 0 0 1 []
      (CacheTrending [] 0 0 []) h (by decide),
    c10_cache_limit_mismatch.2.1 0 0 0 0 [mkArticle "m" 1] 1 hhit⟩

/- ---------------------------------------------------------------------
Facts about cosineSimilarity.
--------------------------------------------------------------------- -/

theorem sumSq_nonneg : ∀ v : List ℝ, 0 ≤ sumSq v
  | [] => le_refl 0
  | x :: t => by
    have ih := sumSq_nonneg t
    simp only [sumSq, List.map_cons, List.sum_cons] at *
    nlinarith [sq_nonneg x]

theorem dotL_self : ∀ v : List ℝ, dotL v v = sumSq v
  | [] => rfl
  | x :: t => by
    simp only [dotL, sumSq, List.zipWith_cons_cons, List.map_cons,
      List.sum_cons] at *
    rw [← dotL, ← sumSq, dotL_self t]

theorem sumSq_pos : ∀ v : List ℝ, (∃ x ∈ v, x ≠ 0) → 0 < sumSq v := by
  intro v
  induction v with
  | nil => rintro ⟨x, hx, _⟩; simp at hx
  | cons y t ih =>
    rintro ⟨x, hx, hxne⟩
    have hts : sumSq (y :: t) = y * y + sumSq t := by
      simp [sumSq]
    rcases List.mem_cons.mp hx with h | h
    · subst h
      have := sumSq_nonneg t
      nlinarith [mul_self_pos.mpr hxne]
    · have := ih ⟨x, h, hxne⟩
      nlinarith [mul_self_nonneg y]

theorem dotL_sq_le : ∀ v1 v2 : List ℝ,
    dotL v1 v2 ^ 2 ≤ sumSq v1 * sumSq v2 := by
  intro v1
  induction v1 with
  | nil =>
    intro v2
    simp [dotL, sumSq]
  | cons x t1 ih =>
    intro v2
    cases v2 with
    | nil =>
      simp [dotL, sumSq]
    | cons y t2 =>
      have hA := sumSq_nonneg t1
      have hB := sumSq_nonneg t2
      have hd := ih t2
      have expand1 : dotL (x :: t1) (y :: t2) = x * y + dotL t1 t2 := by
        simp [dotL]
      have expand2 : sumSq (x :: t1) = x * x + sumSq t1 := by simp [sumSq]
      have expand3 : sumSq (y :: t2) = y * y + sumSq t2 := by simp [sumSq]
      rw [expand1, expand2, expand3]
      set d := dotL t1 t2 with hdd
      set A := sumSq t1 with hAA
      set B := sumSq t2 with hBB
      have ht : 0 ≤ x ^ 2 * B + y ^ 2 * A := by positivity
      have h4 : 4 * (x * y) ^ 2 * d ^ 2 ≤ 4 * (x * y) ^ 2 * (A * B) := by
        nlinarith [sq_nonneg (x * y)]
      have h5 : 4 * (x * y) ^ 2 * (A * B) ≤ (x ^ 2 * B + y ^ 2 * A) ^ 2 := by
        nlinarith [sq_nonneg (x ^ 2 * B - y ^ 2 * A)]
      have h7 : 2 * (x * y) * d ≤ x ^ 2 * B + y ^ 2 * A := by
        nlinarith [h4, h5, ht]
      nlinarith [h7, hd]

theorem abs_dotL_le (v1 v2 : List ℝ) :
    |dotL v1 v2| ≤ Real.sqrt (sumSq v1) * Real.sqrt (sumSq v2) := by
  have h := Real.sqrt_le_sqrt (dotL_sq_le v1 v2)
  rw [Real.sqrt_sq_eq_abs, Real.sqrt_mul (sumSq_nonneg v1)] at h
  exact h

/-- C8: cosineSimilarity returns 0 on mismatched lengths and on
zero-magnitude vectors, always lies in [-1, 1], equals the normalized dot
product when neither degenerate case applies, and is exactly 1 on the
diagonal for every nonzero vector. -/
theorem c8_cosine_similarity_spec :
    (∀ v1 v2 : List ℝ, v1.length ≠ v2.length → cosineSimilarity v1 v2 = 0)
    ∧ (∀ v1 v2 : List ℝ, sumSq v1 = 0 ∨ sumSq v2 = 0 →
        cosineSimilarity v1 v2 = 0)
    ∧ (∀ v1 v2 : List ℝ,
        -1 ≤ cosineSimilarity v1 v2 ∧ cosineSimilarity v1 v2 ≤ 1)
    ∧ (∀ v1 v2 : List ℝ, v1.length = v2.length →
        sumSq v1 ≠ 0 → sumSq v2 ≠ 0 →
        cosineSimilarity v1 v2
          = dotL v1 v2 / (Real.sqrt (sumSq v1) * Real.sqrt (sumSq v2)))
    ∧ (∀ v : List ℝ, (∃ x ∈ v, x ≠ 0) → cosineSimilarity v v = 1) := by
  have hzero : ∀ v1 v2 : List ℝ, sumSq v1 = 0 ∨ sumSq v2 = 0 →
      cosineSimilarity v1 v2 = 0 := by
    intro v1 v2 h
    unfold cosineSimilarity
    split_ifs with h1 h2
    · rfl
    · rfl
    · exfalso
      apply h2
      rcases h with h | h
      · exact Or.inl (by rw [h, Real.sqrt_zero])
      · exact Or.inr (by rw [h, Real.sqrt_zero])
  have hmain : ∀ v1 v2 : List ℝ, v1.length = v2.length →
      sumSq v1 ≠ 0 → sumSq v2 ≠ 0 →
      cosineSimilarity v1 v2
        = dotL v1 v2 / (Real.sqrt (sumSq v1) * Real.sqrt (sumSq v2)) := by
    intro v1 v2 hlen h1 h2
    unfold cosineSimilarity
    rw [if_neg (by simp [hlen]), if_neg]
    push_neg
    constructor
    · exact fun hc =>
        h1 (le_antisymm (Real.sqrt_eq_zero'.mp hc) (sumSq_nonneg v1))
    · exact fun hc =>
        h2 (le_antisymm (Real.sqrt_eq_zero'.mp hc) (sumSq_nonneg v2))
  refine ⟨?_, hzero, ?_, hmain, ?_⟩
  · intro v1 v2 h
    unfold cosineSimilarity
    rw [if_pos h]
  · intro v1 v2
    unfold cosineSimilarity
    split_ifs with h1 h2
    · exact ⟨by norm_num, by norm_num⟩
    · exact ⟨by norm_num, by norm_num⟩
    · push_neg at h2
      have hn1 : 0 < Real.sqrt (sumSq v1) :=
        lt_of_le_of_ne (Real.sqrt_nonneg _) (Ne.symm h2.1)
      have hn2 : 0 < Real.sqrt (sumSq v2) :=
        lt_of_le_of_ne (Real.sqrt_nonneg _) (Ne.symm h2.2)
      have hpos : 0 < Real.sqrt (sumSq v1) * Real.sqrt (sumSq v2) :=
        mul_pos hn1 hn2
      have habs : |dotL v1 v2 / (Real.sqrt (sumSq v1) * Real.sqrt (sumSq v2))| ≤ 1 := by
        rw [abs_div, abs_of_pos hpos, div_le_one hpos]
        exact abs_dotL_le v1 v2
      exact abs_le.mp habs
  · intro v hv
    have hS : 0 < sumSq v := sumSq_pos v hv
    rw [hmain v v rfl (ne_of_gt hS) (ne_of_gt hS), dotL_self,
      Real.mul_self_sqrt (le_of_lt hS), div_self (ne_of_gt hS)]

/-- C8 witness: the vector [3, 4] is nonzero and its self-similarity is 1. -/
theorem c8_cosine_similarity_spec_witness :
    (∃ x ∈ ([3, 4] : List ℝ), x ≠ 0)
    ∧ cosineSimilarity [3, 4] [3, 4] = 1 :=
  ⟨⟨3, by norm_num, by norm_num⟩,
   c8_cosine_similarity_spec.2.2.2.2 [3, 4] ⟨3, by norm_num, by norm_num⟩⟩

end Inshorts
